import Mathlib

/-!
# AgroFlow dashboard: shallow embedding and verification

Shallow embedding of the AgroFlow irrigation dashboard
(`src/components/Dashboard.tsx`, which also contains the data-sync hook
`hooks/useAgroFlow.ts`).  JavaScript numbers are modelled as `ℚ`,
JavaScript strings as `String`, nullable values and possibly-`undefined`
member accesses as `Option`, and the asynchronous remote calls as
explicit `Except`-valued outcomes passed to state-transition functions
over an explicit hook-state record.
-/

namespace AgroFlow

/-! ## Data model (interfaces of `useAgroFlow.ts`) -/

/-- `sensor_status` nested record of `LiveData`. -/
structure SensorStatus where
  dht_working : Bool
  ds18b20_working : Bool
  moisture_working : Bool
deriving DecidableEq

/-- `LiveData` interface: the most recent telemetry snapshot for a device. -/
structure LiveData where
  device_id : String
  timestamp : String
  /-- x10 fixed-point format (255 = 25.5 degrees C) -/
  air_temperature : ℚ
  /-- x10 fixed-point format -/
  soil_temperature : ℚ
  humidity : ℚ
  moisture_surface : ℚ
  moisture_root : ℚ
  moisture_deep : ℚ
  pump_active : Bool
  pump_state : String
  irrigation_reason : String
  wifi_signal : ℚ
  daily_irrigations : ℚ
  rtdb_uploads : ℚ
  firestore_uploads : ℚ
  system_status : String
  last_irrigation : ℚ
  sensor_status : SensorStatus
deriving DecidableEq

/-- `HistoricalReading` interface (hook version, lines 1134-1152). -/
structure HistoricalReading where
  device_id : String
  timestamp : String
  date : String
  air_temperature : ℚ
  soil_temperature : ℚ
  humidity : ℚ
  moisture_surface : ℚ
  moisture_root : ℚ
  moisture_deep : ℚ
  pump_active : Bool
  pump_state : String
  irrigation_reason : String
  daily_cycles : ℚ
  wifi_signal_dbm : ℚ
  uptime_ms : ℚ
  rtdb_uploads : ℚ
  firestore_uploads : ℚ
deriving DecidableEq

/-- `IrrigationEvent` interface. -/
structure IrrigationEvent where
  device : String
  timestamp : String
  /-- "started" or "completed" -/
  event : String
  moisture_surface : ℚ
  moisture_root : ℚ
  moisture_deep : ℚ
  air_temp : ℚ
  soil_temp : ℚ
  daily_count : ℚ
deriving DecidableEq

/-- `DeviceStatus` interface. -/
structure DeviceStatus where
  last_seen : String
  online : Bool
  pump_active : Bool
  root_moisture : ℚ
  daily_irrigations : ℚ
  system_health : String
deriving DecidableEq

/-! ## View helpers (`AgroFlowDashboard`) -/

/-- `convertTempFromX10`: `if (!tempX10 || tempX10 === 0) return 0; return tempX10 / 10`.
On a JS number the guard `!tempX10 || tempX10 === 0` holds exactly for `0` (NaN aside),
modelled on `ℚ` as equality with `0`. -/
def convertTempFromX10 (tempX10 : ℚ) : ℚ :=
  if tempX10 = 0 then 0 else tempX10 / 10

/-- Result record of `getMoistureStatus` (an object literal with
fields `status`, `color`, `bgColor`). -/
structure MoistureStatus where
  status : String
  color : String
  bgColor : String
deriving DecidableEq

/-- `getMoistureStatus`: four-tier moisture bucketing of the view. -/
def getMoistureStatus (moisture : ℚ) : MoistureStatus :=
  if moisture < 30 then { status := "Critical", color := "destructive", bgColor := "bg-red-100" }
  else if moisture < 50 then { status := "Low", color := "warning", bgColor := "bg-yellow-100" }
  else if moisture < 70 then { status := "Good", color := "default", bgColor := "bg-green-100" }
  else { status := "Excellent", color := "success", bgColor := "bg-blue-100" }

/-- One chart point produced by `formatHistoricalData`.  The locale-dependent
`toLocaleTimeString` rendering is abstracted by the `fmtTime` parameter of
`formatHistoricalData`. -/
structure ChartPoint where
  time : String
  soilTemp : ℚ
  airTemp : ℚ
  humidity : ℚ
  moisture1 : ℚ
  moisture2 : ℚ
  moisture3 : ℚ
  pumpActive : Bool
deriving DecidableEq

/-- JS `Array.prototype.slice(-n)` for `n > 0`: the last `n` elements
(the whole array when it is shorter than `n`). -/
def sliceLast {α : Type} (n : Nat) (l : List α) : List α :=
  l.drop (l.length - n)

/-- `formatHistoricalData`: `if (!historicalData?.length) return []`, then
`historicalData.slice(-24).map(...)`.  `fmtTime` abstracts
`t => new Date(t).toLocaleTimeString('en-US', ...)`. -/
def formatHistoricalData (fmtTime : String → String)
    (historicalData : List HistoricalReading) : List ChartPoint :=
  if historicalData.length = 0 then []
  else
    (sliceLast 24 historicalData).map fun reading =>
      { time := fmtTime reading.timestamp
        soilTemp := convertTempFromX10 reading.soil_temperature
        airTemp := convertTempFromX10 reading.air_temperature
        humidity := reading.humidity
        moisture1 := reading.moisture_surface
        moisture2 := reading.moisture_root
        moisture3 := reading.moisture_deep
        pumpActive := reading.pump_active }

/-- The soil-temperature key-metric card: when the view has a live reading it
unconditionally renders `convertTempFromX10(liveData.soil_temperature).toFixed(1)`
followed by the degree sign; `none` would mean a "no reading" placeholder is
shown instead of a numeric value.  The source has no such branch: the converted
value is always rendered. -/
def soilTempDisplay (liveData : Option LiveData) : Option ℚ :=
  liveData.map fun d => convertTempFromX10 d.soil_temperature

/-! ## Hook state (`useAgroFlowData`) -/

/-- The eight `useState` fields owned by the hook. -/
structure HookState where
  currentData : Option LiveData
  historicalData : List HistoricalReading
  irrigationEvents : List IrrigationEvent
  deviceStatus : Option DeviceStatus
  loading : Bool
  error : Option String
  connected : Bool
  lastUpdate : Option String
deriving DecidableEq

/-! ## JS `||` defaulting

`x || d` evaluates to `d` exactly when `x` is falsy (`undefined`, `0`, `''`,
`false`); `Option` models a possibly-`undefined` field access chain. -/

/-- JS `s || d` for a string-or-undefined `s`. -/
def jsOrString (v : Option String) (d : String) : String :=
  match v with
  | some s => if s = "" then d else s
  | none => d

/-- JS `x || d` for a number-or-undefined `x` (NaN aside). -/
def jsOrNum (v : Option ℚ) (d : ℚ) : ℚ :=
  match v with
  | some x => if x = 0 then d else x
  | none => d

/-- JS `b || d` for a boolean-or-undefined `b`. -/
def jsOrBool (v : Option Bool) (d : Bool) : Bool :=
  match v with
  | some b => if b then b else d
  | none => d

/-! ## Historical fetch (`convertFirestoreDoc`, `fetchHistoricalData`) -/

/-- The `data.fields` object of one Firestore document as the hook reads it:
each component is the value of the corresponding
`data.fields?.NAME?.stringValue / integerValue / booleanValue` access chain,
`none` when the chain hits `undefined` (missing or malformed field). -/
structure FirestoreFields where
  device_id : Option String
  timestamp : Option String
  date : Option String
  air_temperature : Option ℚ
  soil_temperature : Option ℚ
  humidity : Option ℚ
  moisture_surface : Option ℚ
  moisture_root : Option ℚ
  moisture_deep : Option ℚ
  pump_active : Option Bool
  pump_state : Option String
  irrigation_reason : Option String
  daily_cycles : Option ℚ
  wifi_signal_dbm : Option ℚ
  uptime_ms : Option ℚ
  rtdb_uploads : Option ℚ
  firestore_uploads : Option ℚ
deriving DecidableEq

/-- A Firestore document whose fields have all been tested absent. -/
def emptyFirestoreFields : FirestoreFields :=
  { device_id := none, timestamp := none, date := none, air_temperature := none
    soil_temperature := none, humidity := none, moisture_surface := none
    moisture_root := none, moisture_deep := none, pump_active := none
    pump_state := none, irrigation_reason := none, daily_cycles := none
    wifi_signal_dbm := none, uptime_ms := none, rtdb_uploads := none
    firestore_uploads := none }

/-- `convertFirestoreDoc`: field-by-field defensive decode.  The argument is
`none` when `doc.data()` (or any other part of the body) throws, in which case
the `catch` logs and returns `null`. -/
def convertFirestoreDoc (deviceId : String) (doc : Option FirestoreFields) :
    Option HistoricalReading :=
  match doc with
  | none => none
  | some data =>
    some
      { device_id := jsOrString data.device_id deviceId
        timestamp := jsOrString data.timestamp ""
        date := jsOrString data.date ""
        air_temperature := jsOrNum data.air_temperature 0
        soil_temperature := jsOrNum data.soil_temperature 0
        humidity := jsOrNum data.humidity 0
        moisture_surface := jsOrNum data.moisture_surface 0
        moisture_root := jsOrNum data.moisture_root 0
        moisture_deep := jsOrNum data.moisture_deep 0
        pump_active := jsOrBool data.pump_active false
        pump_state := jsOrString data.pump_state "OFF"
        irrigation_reason := jsOrString data.irrigation_reason ""
        daily_cycles := jsOrNum data.daily_cycles 0
        wifi_signal_dbm := jsOrNum data.wifi_signal_dbm 0
        uptime_ms := jsOrNum data.uptime_ms 0
        rtdb_uploads := jsOrNum data.rtdb_uploads 0
        firestore_uploads := jsOrNum data.firestore_uploads 0 }

/-- The `querySnapshot.forEach` loop of `fetchHistoricalData`: decode each
document in query order, push the decoded reading when it is non-null, skip
the document otherwise. -/
def processHistoricalDocs (deviceId : String) (docs : List (Option FirestoreFields)) :
    List HistoricalReading :=
  docs.filterMap (convertFirestoreDoc deviceId)

/-- One constraint of a Firestore query, as the modular query API builds it. -/
inductive QueryConstraint where
  | orderByDesc (field : String)
  | limitTo (n : Nat)
  | whereEq (field : String) (value : String)
deriving DecidableEq

/-- The constraints `fetchHistoricalData` passes to `firestoreQuery` on the
`sensor_readings` collection: order by timestamp descending and limit 48 —
and, per the source comment, no device filter ("Simplified query - just get
recent documents without device filter for now"). -/
def historicalQueryConstraints : List QueryConstraint :=
  [QueryConstraint.orderByDesc "fields.timestamp.stringValue", QueryConstraint.limitTo 48]

/-- Timestamp string of a stored raw document, as the server's
`orderBy('fields.timestamp.stringValue', ...)` reads it (absent sorts as ""). -/
def rawTimestamp (d : FirestoreFields) : String :=
  jsOrString d.timestamp ""

/-- Descending-timestamp order on raw documents used by the server to answer
`orderBy('fields.timestamp.stringValue', 'desc')` (string order taken
lexicographically on the character sequences). -/
def rawTsDesc (a b : FirestoreFields) : Prop :=
  (rawTimestamp b).data ≤ (rawTimestamp a).data

instance : DecidableRel rawTsDesc := fun a b =>
  inferInstanceAs (Decidable ((rawTimestamp b).data ≤ (rawTimestamp a).data))

instance : IsTotal FirestoreFields rawTsDesc :=
  ⟨fun a b => (le_total (rawTimestamp b).data (rawTimestamp a).data).imp id id⟩

instance : IsTrans FirestoreFields rawTsDesc :=
  ⟨fun _ _ _ h1 h2 => le_trans h2 h1⟩

/-- Server-side evaluation of one query constraint over the collection
contents. -/
def applyConstraint (docs : List FirestoreFields) (c : QueryConstraint) :
    List FirestoreFields :=
  match c with
  | QueryConstraint.orderByDesc _ => docs.insertionSort rawTsDesc
  | QueryConstraint.limitTo n => docs.take n
  | QueryConstraint.whereEq _ v => docs.filter fun d => jsOrString d.device_id "" = v

/-- Server-side evaluation of a whole constraint list over the
`sensor_readings` collection. -/
def runQuery (store : List FirestoreFields) (cs : List QueryConstraint) :
    List FirestoreFields :=
  cs.foldl applyConstraint store

/-- `fetchHistoricalData` applied to the hook state once its awaited query
settles: on success the decoded readings replace `historicalData` wholesale;
on a thrown error the `catch` sets the error field and nothing else. -/
def fetchHistoricalDataStep (deviceId : String)
    (result : Except String (List (Option FirestoreFields))) (s : HookState) : HookState :=
  match result with
  | Except.ok docs => { s with historicalData := processHistoricalDocs deviceId docs }
  | Except.error err => { s with error := some ("Failed to fetch historical data: " ++ err) }

/-- `fetchHistoricalData`'s query followed by its decode loop, evaluated
against given collection contents. -/
def fetchHistoricalReadings (deviceId : String) (store : List FirestoreFields) :
    List HistoricalReading :=
  processHistoricalDocs deviceId ((runQuery store historicalQueryConstraints).map some)

/-! ## Irrigation-event fetch (`fetchIrrigationEvents`) -/

/-- One child value of the `irrigation_log/deviceId` snapshot:
`some e` when `typeof data === 'object' && data !== null` holds (an event
object), `none` for a non-object entry, which the loop skips. -/
abbrev LogEntry := Option IrrigationEvent

/-- Descending order on events by parsed timestamp, as the comparator
`(a, b) => new Date(b.timestamp).getTime() - new Date(a.timestamp).getTime()`
sorts; `getTime` abstracts `t => new Date(t).getTime()`. -/
def eventTsDesc (getTime : String → Int) (a b : IrrigationEvent) : Prop :=
  getTime b.timestamp ≤ getTime a.timestamp

instance (getTime : String → Int) : DecidableRel (eventTsDesc getTime) := fun a b =>
  inferInstanceAs (Decidable (getTime b.timestamp ≤ getTime a.timestamp))

instance (getTime : String → Int) : IsTotal IrrigationEvent (eventTsDesc getTime) :=
  ⟨fun a b => (le_total (getTime b.timestamp) (getTime a.timestamp)).imp id id⟩

instance (getTime : String → Int) : IsTrans IrrigationEvent (eventTsDesc getTime) :=
  ⟨fun _ _ _ h1 h2 => le_trans h2 h1⟩

/-- The body of `fetchIrrigationEvents` on an existing snapshot: collect the
object-valued children, sort them newest-first by timestamp with a stable
comparison sort, and `slice(0, 20)`. -/
def fetchIrrigationEventsList (getTime : String → Int) (entries : List LogEntry) :
    List IrrigationEvent :=
  (((entries.filterMap id).insertionSort (eventTsDesc getTime)).take 20)

/-- `fetchIrrigationEvents` applied to the hook state once its awaited `get`
settles: `ok (some entries)` is an existing snapshot with the given children,
`ok none` a non-existing snapshot (events replaced by `[]`), `error` a thrown
error (the `catch` sets the error field and nothing else). -/
def fetchIrrigationEventsStep (getTime : String → Int)
    (result : Except String (Option (List LogEntry))) (s : HookState) : HookState :=
  match result with
  | Except.ok (some entries) =>
      { s with irrigationEvents := fetchIrrigationEventsList getTime entries }
  | Except.ok none => { s with irrigationEvents := [] }
  | Except.error err => { s with error := some ("Failed to fetch irrigation events: " ++ err) }

/-! ## Live listeners (`setupRealTimeListeners`) -/

/-- What one delivery to an `onValue` listener carries: a snapshot (whose
`exists()` is `some`/`none`) or a transport error routed to the error
callback. -/
inductive Push (α : Type) where
  | value (snapshot : Option α)
  | failure (message : String)

/-- The live-data `onValue` callback on `live_monitoring/deviceId`: an existing
snapshot replaces the current reading, sets connectivity, stamps `lastUpdate`
with the receive time `now` and clears the error; a non-existing snapshot
clears the reading and connectivity; the error callback records the message
and clears connectivity. -/
def liveDataCallback (now : String) (p : Push LiveData) (s : HookState) : HookState :=
  match p with
  | Push.value (some d) =>
      { s with currentData := some d, connected := true, lastUpdate := some now, error := none }
  | Push.value none => { s with currentData := none, connected := false }
  | Push.failure msg =>
      { s with error := some ("Real-time connection failed: " ++ msg), connected := false }

/-- The device-status `onValue` callback on `device_status/deviceId`: an
existing snapshot replaces the status, a non-existing one clears it, and the
error callback only logs. -/
def deviceStatusCallback (p : Push DeviceStatus) (s : HookState) : HookState :=
  match p with
  | Push.value (some d) => { s with deviceStatus := some d }
  | Push.value none => { s with deviceStatus := none }
  | Push.failure _ => s

/-! ## Refresh (`refreshData`) -/

/-- The settled outcomes of the four awaited remote operations one run of
`refreshData` performs: the two sub-fetches (each of which catches its own
errors) and the two one-shot RTDB snapshots (whose errors propagate to
`refreshData`'s own `catch`). -/
structure RefreshOutcome where
  histResult : Except String (List (Option FirestoreFields))
  irrResult : Except String (Option (List LogEntry))
  liveSnap : Except String (Option LiveData)
  statusSnap : Except String (Option DeviceStatus)

/-- `refreshData`: set loading, clear the error, await both sub-fetches
(`Promise.all`; each settles by catching internally, here applied in program
order), then take the two one-shot snapshots — each applied only when it
exists, with no `else` branch — with any thrown error caught by the outer
`catch` (which sets the error field) and `loading` reset by the `finally` on
every path. `now` abstracts `new Date().toISOString()`. -/
def refreshData (deviceId : String) (getTime : String → Int) (now : String)
    (o : RefreshOutcome) (s : HookState) : HookState :=
  let s1 : HookState := { s with loading := true, error := none }
  let s2 := fetchHistoricalDataStep deviceId o.histResult s1
  let s3 := fetchIrrigationEventsStep getTime o.irrResult s2
  match o.liveSnap with
  | Except.error err =>
      { s3 with error := some ("Failed to refresh data: " ++ err), loading := false }
  | Except.ok live =>
    let s4 := match live with
      | some d => { s3 with currentData := some d, connected := true, lastUpdate := some now }
      | none => s3
    match o.statusSnap with
    | Except.error err =>
        { s4 with error := some ("Failed to refresh data: " ++ err), loading := false }
    | Except.ok st =>
      let s5 := match st with
        | some d => { s4 with deviceStatus := some d }
        | none => s4
      { s5 with loading := false }

/-! ## The hook's returned object and the view's use of it -/

/-- The member names of the object literal `useAgroFlowData` returns
(lines 1414-1424 of the hook), which coincide with the members of its
declared return interface `UseAgroFlowDataReturn` (lines 1175-1185). -/
def useAgroFlowDataReturnMembers : List String :=
  ["currentData", "historicalData", "irrigationEvents", "deviceStatus",
   "loading", "error", "connected", "lastUpdate", "refreshData"]

/-- The member names the view `AgroFlowDashboard` destructures from
`useAgroFlowData(deviceId)` (lines 153-164). -/
def dashboardDestructuredMembers : List String :=
  ["currentData", "historicalData", "irrigationEvents", "deviceStatus",
   "loading", "error", "connected", "lastUpdate", "refreshData", "controlPump"]

/-- JS destructuring of a member from an object: the bound value is present
exactly when the object provides the member (`undefined` otherwise, and
invoking an `undefined` member throws a TypeError instead of issuing any
remote command). -/
def memberLookup (members : List String) (m : String) : Bool :=
  members.contains m

/-- RTDB path of the live-monitoring subscription and one-shot snapshot. -/
def liveMonitoringPath (deviceId : String) : String :=
  "live_monitoring/" ++ deviceId

/-- RTDB path of the device-status subscription and one-shot snapshot. -/
def deviceStatusPath (deviceId : String) : String :=
  "device_status/" ++ deviceId

/-- RTDB path of the irrigation-log fetch. -/
def irrigationLogPath (deviceId : String) : String :=
  "irrigation_log/" ++ deviceId

/-! ## Concrete values used as test inputs -/

/-- The initial hook state set by the eight `useState` calls:
`null / [] / [] / null / true / null / false / null`. -/
def initialHookState : HookState :=
  { currentData := none, historicalData := [], irrigationEvents := [], deviceStatus := none
    loading := true, error := none, connected := false, lastUpdate := none }

/-- A live reading whose numeric telemetry is all zero (a fresh device before
its first real measurement). -/
def zeroLiveData : LiveData :=
  { device_id := "AF001", timestamp := "", air_temperature := 0, soil_temperature := 0
    humidity := 0, moisture_surface := 0, moisture_root := 0, moisture_deep := 0
    pump_active := false, pump_state := "OFF", irrigation_reason := "", wifi_signal := 0
    daily_irrigations := 0, rtdb_uploads := 0, firestore_uploads := 0
    system_status := "operational", last_irrigation := 0
    sensor_status := { dht_working := true, ds18b20_working := true, moisture_working := true } }

/-- A historical reading with the given timestamp (all other fields fixed). -/
def sampleHistoricalReading (ts : String) : HistoricalReading :=
  { device_id := "AF001", timestamp := ts, date := "", air_temperature := 0
    soil_temperature := 0, humidity := 0, moisture_surface := 0, moisture_root := 0
    moisture_deep := 0, pump_active := false, pump_state := "OFF", irrigation_reason := ""
    daily_cycles := 0, wifi_signal_dbm := 0, uptime_ms := 0, rtdb_uploads := 0
    firestore_uploads := 0 }

/-- A stored historical sequence of 48 readings in descending-time order
(timestamps `t57` down to `t10`, also lexicographically descending), i.e. the
most-recent-48 batch the fetch stores, newest first. -/
def hist48 : List HistoricalReading :=
  (List.range 48).map fun i => sampleHistoricalReading ("t" ++ toString (57 - i))

/-- An irrigation event with the given timestamp (all other fields fixed). -/
def sampleIrrigationEvent (ts : String) : IrrigationEvent :=
  { device := "AF001", timestamp := ts, event := "started", moisture_surface := 0
    moisture_root := 0, moisture_deep := 0, air_temp := 0, soil_temp := 0, daily_count := 0 }

/-- A concrete stand-in for `t => new Date(t).getTime()` on the timestamps of
the concrete test events. -/
def sampleGetTime (t : String) : Int :=
  (t.length : Int)

/-- A raw Firestore document carrying only a device id and a timestamp. -/
def docFor (dev ts : String) : FirestoreFields :=
  { emptyFirestoreFields with device_id := some dev, timestamp := some ts }

/-- Whether a query constraint is a `where` (field-filter) constraint. -/
def isFieldFilter (c : QueryConstraint) : Bool :=
  match c with
  | QueryConstraint.whereEq _ _ => true
  | _ => false

/-! ## Theorems -/

/-- C1: the view destructures `controlPump` from the hook's result, but the
object `useAgroFlowData` returns (and its declared `UseAgroFlowDataReturn`
interface) provides no such member, so the destructured binding is
`undefined`: invoking it throws a TypeError instead of sending a pump command
and returning a success boolean. -/
theorem controlPump_not_returned_by_hook :
    memberLookup dashboardDestructuredMembers "controlPump" = true ∧
    memberLookup useAgroFlowDataReturnMembers "controlPump" = false := by
  decide

/-- C2 counterexample: a live reading whose fixed-point soil temperature is 0
is rendered by the soil-temperature card as the numeric value 0 (displayed
"0.0" degrees C); it is not treated as "no reading". -/
theorem zero_temperature_rendered_as_zero :
    soilTempDisplay (some zeroLiveData) = some 0 ∧
    soilTempDisplay (some zeroLiveData) ≠ none := by
  decide

/-- C2 amended: for every fixed-point temperature value `t` the decode
function returns `t / 10` (so `decode 0 = 0`), and the view renders the
decoded value for every live reading — a zero value is displayed as
0.0 degrees C rather than being treated as "no reading". -/
theorem convertTempFromX10_decodes_div10 :
    (∀ t : ℚ, convertTempFromX10 t = t / 10) ∧
    (∀ d : LiveData, soilTempDisplay (some d) = some (d.soil_temperature / 10)) := by
  have h : ∀ t : ℚ, convertTempFromX10 t = t / 10 := by
    intro t
    unfold convertTempFromX10
    split_ifs with h0
    · simp [h0]
    · rfl
  exact ⟨h, fun d => by simp [soilTempDisplay, h]⟩

/-- C3: the moisture bucketing returns `Critical` iff `m < 30`, `Low` iff
`30 ≤ m < 50`, `Good` iff `50 ≤ m < 70`, and `Excellent` iff `70 ≤ m` —
every boundary inclusive on the lower side. -/
theorem getMoistureStatus_thresholds (m : ℚ) :
    ((getMoistureStatus m).status = "Critical" ↔ m < 30) ∧
    ((getMoistureStatus m).status = "Low" ↔ 30 ≤ m ∧ m < 50) ∧
    ((getMoistureStatus m).status = "Good" ↔ 50 ≤ m ∧ m < 70) ∧
    ((getMoistureStatus m).status = "Excellent" ↔ 70 ≤ m) := by
  unfold getMoistureStatus
  split_ifs with h1 h2 h3 <;> simp_all <;>
    (try constructor) <;> (try intro h) <;> linarith

/-- C4 counterexample: decoding a document whose every field is missing under
device id "AF001" yields `device_id = "AF001"` — the device-id string field
defaults to the supplied device identifier, which is neither the empty string
nor "OFF". -/
theorem missing_device_id_defaults_to_deviceId :
    (convertFirestoreDoc "AF001" (some emptyFirestoreFields)).map HistoricalReading.device_id
        = some "AF001" ∧
    ("AF001" : String) ≠ "" ∧ ("AF001" : String) ≠ "OFF" := by
  decide

/-- C4 amended: decoding substitutes a default for each missing or malformed
field — numeric fields default to 0, booleans to false, strings to empty or
"OFF", except `device_id`, which defaults to the externally supplied device
identifier — and a decode failure for one record drops only that record while
the rest of the batch is kept in order. -/
theorem convertFirestoreDoc_defaults_and_drops (deviceId : String)
    (docs1 docs2 : List (Option FirestoreFields)) :
    convertFirestoreDoc deviceId (some emptyFirestoreFields) = some
      { device_id := deviceId, timestamp := "", date := "", air_temperature := 0
        soil_temperature := 0, humidity := 0, moisture_surface := 0, moisture_root := 0
        moisture_deep := 0, pump_active := false, pump_state := "OFF", irrigation_reason := ""
        daily_cycles := 0, wifi_signal_dbm := 0, uptime_ms := 0, rtdb_uploads := 0
        firestore_uploads := 0 } ∧
    processHistoricalDocs deviceId (docs1 ++ none :: docs2) =
      processHistoricalDocs deviceId docs1 ++ processHistoricalDocs deviceId docs2 := by
  refine ⟨rfl, ?_⟩
  simp [processHistoricalDocs, List.filterMap_append, List.filterMap_cons, convertFirestoreDoc]

/-- C5: on an existing snapshot the fetched irrigation events replace the
stored sequence wholesale (independently of the previous state); the produced
list is the 20-truncation of a descending-by-timestamp sorting of exactly the
object-valued entries, hence itself sorted descending with length
`min 20 (number of object entries)`; and on entries with timestamps
`[t3, t1, t2]` (with `t1 < t2 < t3`, a non-object entry interleaved) it yields
`[t3, t2, t1]`. -/
theorem fetchIrrigationEvents_sorts_desc_truncates (getTime : String → Int)
    (entries : List LogEntry) (s : HookState) (e1 e2 e3 : IrrigationEvent)
    (h12 : getTime e1.timestamp < getTime e2.timestamp)
    (h23 : getTime e2.timestamp < getTime e3.timestamp) :
    (fetchIrrigationEventsStep getTime (Except.ok (some entries)) s).irrigationEvents
        = fetchIrrigationEventsList getTime entries ∧
    (∃ l, (entries.filterMap id).Perm l ∧ l.Sorted (eventTsDesc getTime) ∧
        fetchIrrigationEventsList getTime entries = l.take 20) ∧
    (fetchIrrigationEventsList getTime entries).Sorted (eventTsDesc getTime) ∧
    (fetchIrrigationEventsList getTime entries).length = min 20 (entries.filterMap id).length ∧
    fetchIrrigationEventsList getTime [some e3, none, some e1, some e2] = [e3, e2, e1] := by
  refine ⟨rfl,
    ⟨(entries.filterMap id).insertionSort (eventTsDesc getTime),
      (List.perm_insertionSort _ _).symm, List.sorted_insertionSort _ _, rfl⟩,
    List.Pairwise.sublist (List.take_sublist _ _) (List.sorted_insertionSort _ _), ?_, ?_⟩
  · simp [fetchIrrigationEventsList, List.length_take,
      (List.perm_insertionSort (eventTsDesc getTime) (entries.filterMap id)).length_eq]
  · have hne : ¬ eventTsDesc getTime e1 e2 := not_le.mpr h12
    have h32 : eventTsDesc getTime e3 e2 := le_of_lt h23
    simp [fetchIrrigationEventsList, List.insertionSort, List.orderedInsert, hne, h32,
      List.take_of_length_le]

/-- C5 witness: the sort/truncate/replace behaviour instantiated on the three
concrete events with timestamps "1", "22", "333" (so with parsed times
1 < 2 < 3 under `sampleGetTime`) pushed into the initial hook state. -/
theorem fetchIrrigationEvents_sorts_desc_truncates_witness :
    (fetchIrrigationEventsStep sampleGetTime
        (Except.ok (some [some (sampleIrrigationEvent "333"), none,
          some (sampleIrrigationEvent "1"), some (sampleIrrigationEvent "22")]))
        initialHookState).irrigationEvents
      = fetchIrrigationEventsList sampleGetTime
          [some (sampleIrrigationEvent "333"), none,
            some (sampleIrrigationEvent "1"), some (sampleIrrigationEvent "22")] ∧
    (∃ l, (([some (sampleIrrigationEvent "333"), none, some (sampleIrrigationEvent "1"),
          some (sampleIrrigationEvent "22")] : List LogEntry).filterMap id).Perm l ∧
        l.Sorted (eventTsDesc sampleGetTime) ∧
        fetchIrrigationEventsList sampleGetTime
          [some (sampleIrrigationEvent "333"), none, some (sampleIrrigationEvent "1"),
            some (sampleIrrigationEvent "22")] = l.take 20) ∧
    (fetchIrrigationEventsList sampleGetTime
        [some (sampleIrrigationEvent "333"), none, some (sampleIrrigationEvent "1"),
          some (sampleIrrigationEvent "22")]).Sorted (eventTsDesc sampleGetTime) ∧
    (fetchIrrigationEventsList sampleGetTime
        [some (sampleIrrigationEvent "333"), none, some (sampleIrrigationEvent "1"),
          some (sampleIrrigationEvent "22")]).length
      = min 20 (([some (sampleIrrigationEvent "333"), none, some (sampleIrrigationEvent "1"),
          some (sampleIrrigationEvent "22")] : List LogEntry).filterMap id).length ∧
    fetchIrrigationEventsList sampleGetTime
        [some (sampleIrrigationEvent "333"), none, some (sampleIrrigationEvent "1"),
          some (sampleIrrigationEvent "22")]
      = [sampleIrrigationEvent "333", sampleIrrigationEvent "22", sampleIrrigationEvent "1"] :=
  fetchIrrigationEvents_sorts_desc_truncates sampleGetTime
    [some (sampleIrrigationEvent "333"), none, some (sampleIrrigationEvent "1"),
      some (sampleIrrigationEvent "22")]
    initialHookState (sampleIrrigationEvent "1") (sampleIrrigationEvent "22")
    (sampleIrrigationEvent "333") (by decide) (by decide)

/-- C6: the historical query `fetchHistoricalData` issues on `sensor_readings`
carries no field-filter constraint (per the source comment, "without device
filter for now"), so on a store holding readings of two devices the fetch for
"AF001" also returns — and stores — the other device's record. -/
theorem fetchHistoricalData_not_filtered_by_device :
    historicalQueryConstraints.all (fun c => !(isFieldFilter c)) = true ∧
    (fetchHistoricalReadings "AF001" [docFor "AF001" "t1", docFor "OTHER" "t2"]).map
        HistoricalReading.device_id = ["OTHER", "AF001"] := by
  decide

/-- The `finally` clause of `refreshData`: whatever the four remote outcomes,
the run ends with the loading flag false. -/
lemma refreshData_loading_false (deviceId : String) (getTime : String → Int) (now : String)
    (o : RefreshOutcome) (s : HookState) :
    (refreshData deviceId getTime now o s).loading = false := by
  obtain ⟨hr, ir, ls, ss⟩ := o
  rcases ls with e | lv <;> (try rcases lv with _ | d) <;>
    rcases ss with e' | st <;> (try rcases st with _ | d') <;>
      simp [refreshData]

/-- C7: a `refreshData` run whose two sub-fetches both fail leaves the
previously stored historical readings and irrigation events unchanged, ends
with the error field set, and — like every other run, whatever the outcomes —
ends with the loading flag false. -/
theorem refreshData_failure_preserves_data_and_clears_loading
    (deviceId : String) (getTime : String → Int) (now : String) (e1 e2 : String)
    (liveSnap : Except String (Option LiveData))
    (statusSnap : Except String (Option DeviceStatus)) (s : HookState) :
    ((refreshData deviceId getTime now
        { histResult := Except.error e1, irrResult := Except.error e2
          liveSnap := liveSnap, statusSnap := statusSnap } s).historicalData
      = s.historicalData) ∧
    ((refreshData deviceId getTime now
        { histResult := Except.error e1, irrResult := Except.error e2
          liveSnap := liveSnap, statusSnap := statusSnap } s).irrigationEvents
      = s.irrigationEvents) ∧
    ((refreshData deviceId getTime now
        { histResult := Except.error e1, irrResult := Except.error e2
          liveSnap := liveSnap, statusSnap := statusSnap } s).error).isSome = true ∧
    ((refreshData deviceId getTime now
        { histResult := Except.error e1, irrResult := Except.error e2
          liveSnap := liveSnap, statusSnap := statusSnap } s).loading = false) ∧
    (∀ (o : RefreshOutcome) (s' : HookState),
      (refreshData deviceId getTime now o s').loading = false) := by
  refine ⟨?_, ?_, ?_, ?_, fun o s' => refreshData_loading_false deviceId getTime now o s'⟩ <;>
    rcases liveSnap with e | lv <;> (try rcases lv with _ | d) <;>
      rcases statusSnap with e' | st <;> (try rcases st with _ | d') <;>
        simp [refreshData, fetchHistoricalDataStep, fetchIrrigationEventsStep]

/-- C8: on a stored batch of 48 readings in descending-time order (newest
first, timestamps "t57" down to "t10"), the chart-formatting function keeps
`slice(-24)` — the last 24 array elements, i.e. the OLDEST 24 readings — and
the most recent reading ("t57") is absent from the chart, contradicting both
the claim and the source comment "Last 24 readings". -/
theorem formatHistoricalData_keeps_oldest_24 :
    (hist48.map HistoricalReading.timestamp).Pairwise (fun a b => b.data ≤ a.data) ∧
    hist48.length = 48 ∧
    hist48.head?.map HistoricalReading.timestamp = some "t57" ∧
    (formatHistoricalData id hist48).map ChartPoint.time
      = (hist48.drop 24).map HistoricalReading.timestamp ∧
    "t57" ∉ (formatHistoricalData id hist48).map ChartPoint.time := by
  decide

/-- C9: the device-status listener callback only maintains the `deviceStatus`
field: for every delivery (existing snapshot, empty snapshot, or transport
error), the connectivity flag, the error field, and every other state field
are unchanged. -/
theorem deviceStatusCallback_frame (p : Push DeviceStatus) (s : HookState) :
    (deviceStatusCallback p s).connected = s.connected ∧
    (deviceStatusCallback p s).error = s.error ∧
    (deviceStatusCallback p s).currentData = s.currentData ∧
    (deviceStatusCallback p s).historicalData = s.historicalData ∧
    (deviceStatusCallback p s).irrigationEvents = s.irrigationEvents ∧
    (deviceStatusCallback p s).loading = s.loading ∧
    (deviceStatusCallback p s).lastUpdate = s.lastUpdate := by
  rcases p with (_ | d) | msg <;> simp [deviceStatusCallback]

/-- C10: when the one-shot snapshots taken by `refreshData` find no value at
the live-monitoring and device-status paths, the stored current reading, the
connectivity flag, the last-update timestamp and the device status are all
left unchanged — unlike the live subscription callback, which on an empty
push clears the current reading and sets connectivity false. -/
theorem refresh_snapshot_miss_preserves_state
    (deviceId : String) (getTime : String → Int) (now now' : String)
    (hr : Except String (List (Option FirestoreFields)))
    (ir : Except String (Option (List LogEntry))) (s s' : HookState) :
    ((refreshData deviceId getTime now
        { histResult := hr, irrResult := ir
          liveSnap := Except.ok none, statusSnap := Except.ok none } s).currentData
      = s.currentData) ∧
    ((refreshData deviceId getTime now
        { histResult := hr, irrResult := ir
          liveSnap := Except.ok none, statusSnap := Except.ok none } s).connected
      = s.connected) ∧
    ((refreshData deviceId getTime now
        { histResult := hr, irrResult := ir
          liveSnap := Except.ok none, statusSnap := Except.ok none } s).lastUpdate
      = s.lastUpdate) ∧
    ((refreshData deviceId getTime now
        { histResult := hr, irrResult := ir
          liveSnap := Except.ok none, statusSnap := Except.ok none } s).deviceStatus
      = s.deviceStatus) ∧
    (liveDataCallback now' (Push.value none) s').currentData = none ∧
    (liveDataCallback now' (Push.value none) s').connected = false := by
  cases hr <;> rcases ir with e | (_ | l) <;>
    simp [refreshData, fetchHistoricalDataStep, fetchIrrigationEventsStep, liveDataCallback]

end AgroFlow
